import Mathlib

/-!
Verification of the activity recommendation and plan-validation core of the
Miris-Mikroabenteuer guide (a bilingual family-activity planner).

The definitions below are a shallow embedding of the Python sources:
  * `src/src/mikroabenteuer/openai_gen.py`   (plan builder, safety validator)
  * `src/src/mikroabenteuer/materials.py`    (material constraint enforcement)
  * `src/src/mikroabenteuer/recommender.py`  (filter / score / seeded pick)
  * `src/src/mikroabenteuer/models.py`       (data model)
  * `src/src/mikroabenteuer/constants.py`    (theme table)

Python strings are Lean `String`s; Python `str` operations (`casefold`,
`lower`, `strip`, substring `in`) are modelled character-exactly on the
alphabet the program's vocabulary uses (ASCII plus the German letters
ä ö ü Ä Ö Ü ß).  Python `float` values are modelled by exact unnormalised
rationals (`PyFloat`): every float operation the core performs on them
(comparison, multiplication by 12, max with 0, and small additive score
bumps) is exact at these magnitudes, so no claim below depends on binary
rounding.  Python sets of strings are modelled by lists, used only through
membership, which matches set semantics.
-/

namespace Mikro

/-! ## Python string primitives -/

/-- Substring test on character lists: `subL n h` is Python `n in h`. -/
def subL : List Char → List Char → Bool
  | n, [] => n.isEmpty
  | n, c :: t => n.isPrefixOf (c :: t) || subL n t

/-- Python `needle in hay` for strings. -/
def strIn (needle hay : String) : Bool := subL needle.data hay.data

/-- One character of Python `str.casefold`, restricted to the alphabet used by
this program's keyword/alias vocabulary: ASCII letters fold to lower case,
Ä/Ö/Ü fold to ä/ö/ü and ß folds to "ss" (as CPython does). -/
def cfChar (c : Char) : List Char :=
  if c = 'ß' then ['s', 's']
  else if c = 'Ä' then ['ä']
  else if c = 'Ö' then ['ö']
  else if c = 'Ü' then ['ü']
  else [c.toLower]

/-- Python `str.casefold` on a character list. -/
def casefoldL (l : List Char) : List Char := l.flatMap cfChar

/-- Python `str.casefold`. -/
def pyCasefold (s : String) : String := String.mk (casefoldL s.data)

/-- One character of Python `str.lower` (ASCII + the German letters used). -/
def lowChar (c : Char) : Char :=
  if c = 'Ä' then 'ä'
  else if c = 'Ö' then 'ö'
  else if c = 'Ü' then 'ü'
  else c.toLower

/-- Python `str.lower`. -/
def pyLower (s : String) : String := String.mk (s.data.map lowChar)

/-- Python whitespace class `\s` (ASCII part, which is all the inputs use). -/
def isWs (c : Char) : Bool :=
  c = ' ' || c = '\t' || c = '\n' || c = '\r' || c = '\x0b' || c = '\x0c'

/-- Python `str.strip` on a character list. -/
def stripL (l : List Char) : List Char :=
  ((l.dropWhile isWs).reverse.dropWhile isWs).reverse

/-- Python `str.strip`. -/
def pyStrip (s : String) : String := String.mk (stripL s.data)

/-- Collapse runs of spaces to a single space (helper for `re.sub("\s+", " ", ...)`,
applied after every whitespace character has been mapped to a space). -/
def squeezeSpaces : List Char → List Char
  | [] => []
  | [c] => [c]
  | a :: b :: t =>
    if a = ' ' && b = ' ' then squeezeSpaces (b :: t) else a :: squeezeSpaces (b :: t)

/-- `re.sub(r"\s+", " ", l)`: every maximal whitespace run becomes one space. -/
def collapseWs (l : List Char) : List Char :=
  squeezeSpaces (l.map (fun c => if isWs c then ' ' else c))

/-- Python `sep.join(parts)`. -/
def joinSep (sep : String) : List String → String
  | [] => ""
  | [s] => s
  | s :: t :: rest => s ++ sep ++ joinSep sep (t :: rest)

/-! ## An exact model of the Python floats the core manipulates -/

/-- Exact unnormalised rational standing in for a Python `float`.  The
denominator is kept positive by construction at every use site.  Comparisons
are by cross-multiplication, so no gcd normalisation is ever needed. -/
structure PyFloat where
  num : Int
  den : Int
  deriving Repr, DecidableEq

/-- Embed a natural number. -/
def PyFloat.ofNat (n : Nat) : PyFloat := ⟨n, 1⟩

/-- Strict `<` on `PyFloat` (cross-multiplication; denominators positive). -/
def PyFloat.ltB (a b : PyFloat) : Bool := a.num * b.den < b.num * a.den

/-- `≤` on `PyFloat`. -/
def PyFloat.leB (a b : PyFloat) : Bool := a.num * b.den ≤ b.num * a.den

/-- Multiplication. -/
def PyFloat.mul (a b : PyFloat) : PyFloat := ⟨a.num * b.num, a.den * b.den⟩

/-- Addition. -/
def PyFloat.add (a b : PyFloat) : PyFloat :=
  ⟨a.num * b.den + b.num * a.den, a.den * b.den⟩

/-- Python `max(a, b)` on floats. -/
def PyFloat.pymax (a b : PyFloat) : PyFloat := if a.ltB b then b else a

/-! ## Data model (`src/src/mikroabenteuer/models.py`) -/

/-- `AgeUnit` enum. -/
inductive AgeUnit where
  | months
  | years
  deriving Repr, DecidableEq

/-- `IndoorOutdoor` enum. -/
inductive IndoorOutdoor where
  | indoor
  | outdoor
  | mixed
  deriving Repr, DecidableEq

/-- `DevelopmentDomain` enum (six fixed development goals). -/
inductive DevelopmentDomain where
  | gross_motor
  | fine_motor
  | language
  | social_emotional
  | sensory
  | cognitive
  deriving Repr, DecidableEq

/-- `MicroAdventure` catalog entry (dataclass in `models.py`).  Fields that no
function of the verified core reads (`best_time`, `carla_tip`, url-like
strings) are kept as plain data. -/
structure MicroAdventure where
  slug : String
  title : String
  area : String
  short : String
  duration_minutes : Nat
  distance_km : PyFloat
  best_time : String
  stroller_ok : Bool
  start_point : String
  route_steps : List String
  preparation : List String
  packing_list : List String
  execution_tips : List String
  variations : List String
  toddler_benefits : List String
  carla_tip : String
  risks : List String
  mitigations : List String
  tags : List String
  accessibility : List String
  season_tags : List String
  weather_tags : List String
  energy_level : String
  difficulty : String
  age_min : PyFloat
  age_max : PyFloat
  mood_tags : List String
  safety_level : String
  deriving Repr, DecidableEq

/-- `datetime.date`, used only through `isoformat()`. -/
structure PyDate where
  year : Nat
  month : Nat
  day : Nat
  deriving Repr, DecidableEq

/-- Zero-padded decimal rendering. -/
def padNat (width n : Nat) : String :=
  let s := toString n
  String.mk (List.replicate (width - s.data.length) '0') ++ s

/-- `date.isoformat()`: `YYYY-MM-DD`. -/
def isoformat (d : PyDate) : String :=
  padNat 4 d.year ++ "-" ++ padNat 2 d.month ++ "-" ++ padNat 2 d.day

/-- `datetime.time`, stored as seconds of the day. -/
structure PyTime where
  secondsOfDay : Nat
  deriving Repr, DecidableEq

/-- `time.isoformat()`: `HH:MM:SS`. -/
def timeIso (t : PyTime) : String :=
  padNat 2 (t.secondsOfDay / 3600) ++ ":" ++ padNat 2 (t.secondsOfDay % 3600 / 60)
    ++ ":" ++ padNat 2 (t.secondsOfDay % 60)

/-- `TimeWindow` (validated so that `end` is after `start`). -/
structure TimeWindow where
  start : PyTime
  stop : PyTime
  deriving Repr, DecidableEq

/-- `ActivitySearchCriteria`, after pydantic validation/normalisation.  The
embedding holds already-validated field values, exactly what the core
functions receive. -/
structure ActivitySearchCriteria where
  plz : String
  radius_km : PyFloat
  date : PyDate
  time_window : TimeWindow
  effort : String
  budget_eur_max : PyFloat
  child_age_years : PyFloat
  topics : List String
  location_preference : IndoorOutdoor
  goals : List DevelopmentDomain
  constraints : List String
  available_materials : List String
  max_suggestions : Nat
  deriving Repr, DecidableEq

/-- `criteria.available_minutes`:
`int((datetime.combine(date, end) - datetime.combine(date, start)).total_seconds() // 60)`. -/
def availableMinutes (c : ActivitySearchCriteria) : Nat :=
  (c.time_window.stop.secondsOfDay - c.time_window.start.secondsOfDay) / 60

/-- `ActivityRequest`: the contract object handed to the generator/validator. -/
structure ActivityRequest where
  age_value : PyFloat
  age_unit : AgeUnit
  duration_minutes : Nat
  indoor_outdoor : IndoorOutdoor
  materials : List String
  goals : List String
  constraints : List String
  deriving Repr, DecidableEq

/-- `ActivityPlan`: the structured user-facing plan. -/
structure ActivityPlan where
  title : String
  summary : String
  steps : List String
  safety_notes : List String
  parent_child_prompts : List String
  variants : List String
  supports : List String
  deriving Repr, DecidableEq

/-- `WeatherSummary`: the core reads only `derived_tags` (scoring) and joins
them into one note (fallback plan summary); the numeric fields are never read
by the verified core and are omitted. -/
structure WeatherSummary where
  derived_tags : List String
  deriving Repr, DecidableEq

/-- `PlanMode = Literal["standard", "parent_script"]`. -/
inductive PlanMode where
  | standard
  | parent_script
  deriving Repr, DecidableEq

/-! ## Safety validator (`openai_gen.py`, `validate_activity_plan`) -/

/-- `_request_age_months`: years are converted with the fixed 12x rule. -/
def request_age_months (request : ActivityRequest) : PyFloat :=
  if request.age_unit = AgeUnit.months then request.age_value
  else request.age_value.mul (PyFloat.ofNat 12)

/-- The always-blocked keyword set of `validate_activity_plan`. -/
def always_blocked_keywords : List String :=
  ["knife", "cutter", "saw", "drill", "messer", "säge", "bohrer",
   "fire", "campfire", "stove", "oven", "boiling", "flame", "grill",
   "candle", "feuer", "lagerfeuer", "grillen", "kerze", "kochend",
   "bleach", "ammonia", "solvent", "pesticide", "paint thinner",
   "bleichmittel", "ammoniak", "lösungsmittel", "chemikal", "verdünner"]

/-- Scissors keywords. -/
def scissors_keywords : List String := ["scissors", "schere"]

/-- Child-safe-scissors markers. -/
def child_safe_markers : List String :=
  ["safety scissors", "child-safe scissors", "kinderschere"]

/-- Supervision markers. -/
def supervision_markers : List String :=
  ["under supervision", "with supervision", "adult supervision",
   "unter aufsicht", "mit aufsicht"]

/-- Choking-hazard keywords checked for under-36-month requests. -/
def under_three_keywords : List String :=
  ["small parts", "small part", "tiny bead", "beads", "marble", "coin",
   "button battery", "kleinteile", "kleinteil", "perlen", "murmel",
   "münze", "knopfzelle"]

/-- The case-folded `"\n"`-join of title, summary, steps, safety notes,
prompts and variants — the haystack `validate_activity_plan` scans. -/
def plan_haystack (plan : ActivityPlan) : List Char :=
  casefoldL (joinSep "\n"
    ([plan.title, plan.summary] ++ plan.steps ++ plan.safety_notes
      ++ plan.parent_child_prompts ++ plan.variants)).data

/-- `validate_activity_plan(plan, request)`: `false` exactly when a hazard
rule fires.  The nested early-return structure of the source is flattened
into guard conjunctions with identical semantics: the scissors rule rejects
when scissors are mentioned, the age is under 72 months, and the child-safe
and supervision markers are not both present; the choking rule rejects when
the age is under 36 months and an under-three keyword is present. -/
def validate_activity_plan (plan : ActivityPlan) (request : ActivityRequest) : Bool :=
  let haystack := plan_haystack plan
  if always_blocked_keywords.any (fun kw => subL kw.data haystack) then false
  else if scissors_keywords.any (fun kw => subL kw.data haystack)
      && (request_age_months request).ltB (PyFloat.ofNat 72)
      && !(child_safe_markers.any (fun m => subL m.data haystack)
            && supervision_markers.any (fun m => subL m.data haystack)) then false
  else if (request_age_months request).ltB (PyFloat.ofNat 36)
      && under_three_keywords.any (fun kw => subL kw.data haystack) then false
  else true

/-! ## Materials (`src/src/mikroabenteuer/materials.py`) -/

/-- `COMMON_HOUSEHOLD_MATERIALS`. -/
def COMMON_HOUSEHOLD_MATERIALS : List String :=
  ["paper", "pens", "tape", "scissors", "bowls", "rice", "flashlight"]

/-- `MATERIAL_ALIASES.get(key, ())`. -/
def material_aliases (key : String) : List String :=
  if key = "paper" then ["papier", "paper", "zettel", "blatt", "vorlage", "notizbuch"]
  else if key = "pens" then ["stift", "stifte", "marker", "kreide", "pens", "pen"]
  else if key = "tape" then ["klebeband", "tape"]
  else if key = "scissors" then ["schere", "scissors"]
  else if key = "bowls" then ["schüssel", "schuessel", "bowls", "bowl"]
  else if key = "rice" then ["reis", "rice"]
  else if key = "flashlight" then ["taschenlampe", "flashlight", "lampe"]
  else []

/-- `SUBSTITUTIONS[key]` (total, with an unused default for foreign keys). -/
def material_substitution (key : String) : String :=
  if key = "paper" then
    "Nutze abwischbare Fläche (Fenster/Tafel) statt Papier. / Use a wipeable surface instead of paper."
  else if key = "pens" then
    "Nutze Fingerzeigen oder Gegenstände statt Stifte. / Use pointing or objects instead of pens."
  else if key = "tape" then
    "Nutze vorhandene Kanten/Linien statt Klebeband. / Use existing edges/lines instead of tape."
  else if key = "scissors" then
    "Kein Schneiden nötig; stattdessen reißen oder sortieren. / Skip cutting; tear or sort instead."
  else if key = "bowls" then
    "Nutze Becher oder kleine Dosen statt Schüsseln. / Use cups or small containers instead of bowls."
  else if key = "rice" then
    "Nutze trockene Bohnen/Nudeln oder Naturmaterialien statt Reis. / Use dry beans/pasta or natural items instead of rice."
  else if key = "flashlight" then
    "Nutze Tageslicht und Schatten statt Taschenlampe. / Use daylight and shadows instead of a flashlight."
  else ""

/-- `normalize_material_token`: strip, casefold, collapse whitespace. -/
def normalize_material_token (value : String) : String :=
  String.mk (collapseWs (casefoldL (stripL value.data)))

/-- `blocked_materials(available_materials)`: the fixed household list minus
the normalised available materials; Python's set is modelled as the list in
`COMMON_HOUSEHOLD_MATERIALS` order (only membership is ever used). -/
def blocked_materials (available_materials : List String) : List String :=
  let available := (available_materials.filter (fun i => !i.isEmpty)).map normalize_material_token
  if available.isEmpty then []
  else COMMON_HOUSEHOLD_MATERIALS.filter (fun m => !(available.contains m))

/-- `material_matches_blocklist(text, blocked)`: the set of blocked keys whose
alias list matches the normalised text (list-as-set; truthiness below is
non-emptiness, as in the Python callers). -/
def material_matches_blocklist (text : String) (blocked : List String) : List String :=
  let normalized := normalize_material_token text
  blocked.filter (fun key => (material_aliases key).any (fun a => subL a.data normalized.data))

/-- `substitutions_for(blocked)`. -/
def substitutions_for (blocked : List String) : List String :=
  (COMMON_HOUSEHOLD_MATERIALS.filter (fun m => blocked.contains m)).map material_substitution

/-! ## Themes (`src/src/mikroabenteuer/constants.py`) -/

/-- `Theme` (labels are never read by the core and are omitted). -/
structure Theme where
  key : String
  match_tags : List String
  deriving Repr, DecidableEq

/-- `THEMES`. -/
def THEMES : List Theme :=
  [⟨"nature", ["Natur"]⟩,
   ⟨"movement", ["Bewegung", "Motorik", "Abenteuer"]⟩,
   ⟨"creative", ["Kreativ", "Musik", "Sprache"]⟩,
   ⟨"learning", ["Lernen"]⟩,
   ⟨"mindfulness", ["Achtsamkeit", "Ruhig"]⟩,
   ⟨"social", ["Sozial", "Werte", "Bonding", "Alltag"]⟩,
   ⟨"water", ["Wasser"]⟩,
   ⟨"rain", ["Regen"]⟩,
   ⟨"wind", ["Wind"]⟩,
   ⟨"winter", ["Winter"]⟩,
   ⟨"evening", ["Abend"]⟩,
   ⟨"playground", ["Spielplatz"]⟩]

/-- `_theme_match_tags(theme_key)`: first theme with that key, else `[]`. -/
def theme_match_tags (theme_key : String) : List String :=
  match THEMES.find? (fun t => t.key = theme_key) with
  | some t => t.match_tags
  | none => []

/-! ## Plan builder (`openai_gen.py`) -/

/-- `_domain_label`. -/
def domain_label : DevelopmentDomain → String
  | DevelopmentDomain.gross_motor => "Grobmotorik / Gross motor"
  | DevelopmentDomain.fine_motor => "Feinmotorik / Fine motor"
  | DevelopmentDomain.language => "Sprache / Language"
  | DevelopmentDomain.social_emotional => "Sozial-emotional / Social-emotional"
  | DevelopmentDomain.sensory => "Sensorik / Sensory"
  | DevelopmentDomain.cognitive => "Kognition / Cognitive"

/-- `_domain_prompt`. -/
def domain_prompt : DevelopmentDomain → String
  | DevelopmentDomain.gross_motor => "Welche große Bewegung macht dir gerade am meisten Spaß?"
  | DevelopmentDomain.fine_motor => "Kannst du mit deinen Fingern ein kleines Detail zeigen?"
  | DevelopmentDomain.language => "Wie würdest du das in deinen eigenen Worten beschreiben?"
  | DevelopmentDomain.social_emotional => "Wie fühlt sich dein Körper gerade an und was hilft dir?"
  | DevelopmentDomain.sensory => "Welches Geräusch, Gefühl oder Geruch nimmst du gerade wahr?"
  | DevelopmentDomain.cognitive => "Was glaubst du passiert als Nächstes und warum?"

/-- `any("language" in goal.casefold() or "sprache" in goal.casefold() for goal in goals)`. -/
def has_language_goal (goals : List String) : Bool :=
  goals.any (fun goal =>
    subL "language".data (casefoldL goal.data) || subL "sprache".data (casefoldL goal.data))

/-- The dedicated language say/do prompt of `_responsive_exchange_prompts`. -/
def language_exchange_prompt : String :=
  "Say: Can you teach me one word for this? / Do: Repeat your child\x27s word and add one new word together."

/-- The pace-choice say/do prompt of `_responsive_exchange_prompts`. -/
def pace_exchange_prompt : String :=
  "Say: Should we do one more round or take a break? / Do: Let your child choose and mirror their pace."

/-- `_responsive_exchange_prompts(goals)`. -/
def responsive_exchange_prompts (goals : List String) : List String :=
  let prompts :=
    ["Say: I see you looking closely. What did you notice? / Do: Point together and wait for your child\x27s answer.",
     "Say: Great idea, let\x27s try your version next. / Do: Copy your child\x27s action once before offering the next step.",
     if has_language_goal goals then language_exchange_prompt else pace_exchange_prompt]
  if has_language_goal goals then prompts ++ [pace_exchange_prompt] else prompts

/-- The `for fallback_prompt in ...: if len >= 3: break; if not in: append` loop. -/
def append_fallback_prompts (cur : List String) : List String → List String
  | [] => cur
  | f :: rest =>
    if cur.length ≥ 3 then cur
    else append_fallback_prompts (if decide (f ∈ cur) then cur else cur ++ [f]) rest

/-- `_ensure_responsive_prompts(prompts, goals)`: keep the say/do prompts,
top up to 3 from the canned exchanges, guarantee a language-marker prompt
when a language goal is present, cap at 6. -/
def ensure_responsive_prompts (prompts goals : List String) : List String :=
  let normalized := prompts.filterMap (fun p =>
    let s := pyStrip p
    if s.isEmpty then none else some s)
  let say_do := normalized.filter (fun p =>
    subL "say:".data (casefoldL p.data) && subL "do:".data (casefoldL p.data))
  let say_do := append_fallback_prompts say_do (responsive_exchange_prompts goals)
  let language_marker : List String := ["word", "wort", "sprache"]
  let say_do :=
    if has_language_goal goals
        && !(say_do.any (fun p =>
              language_marker.any (fun m => subL m.data (casefoldL p.data)))) then
      let lp := (responsive_exchange_prompts ["Sprache / Language"]).getD 2 ""
      if say_do.length ≥ 6 then say_do.dropLast ++ [lp] else say_do ++ [lp]
    else say_do
  say_do.take 6

/-- The canned lower-energy Plan-B variant text. -/
def lower_energy_text (available_minutes : Nat) : String :=
  "Lower energy / Weniger Energie: Halbtempo-Version mit ruhigeren Bewegungen und Pausen nach Bedarf ("
    ++ toString (max 10 (available_minutes / 2)) ++ "-" ++ toString available_minutes ++ " min)."

/-- The canned higher-energy Plan-B variant text. -/
def higher_energy_text : String :=
  "Higher energy / Mehr Energie: Zwei zusätzliche Bewegungsrunden oder Suchaufgaben mit klaren Stopp-Signalen."

/-- The canned indoor-swap Plan-B variant text. -/
def indoor_swap_text : String :=
  "Indoor swap / Indoor-Tausch: Gleiches Ziel drinnen mit Kissen-Parcours, Malerkrepp-Linien oder Fenstersuche umsetzen."

/-- The canned no-materials Plan-B variant text (`start_point or 'zu Hause / at home'`). -/
def no_materials_text (start_point : String) : String :=
  "No materials / Ohne Material: Nur Stimme, Hände und vorhandene Umgebung nutzen (z. B. "
    ++ (if start_point.isEmpty then "zu Hause / at home" else start_point) ++ ")."

/-- The ordered label/text category table of `_ensure_plan_b_variants`. -/
def plan_b_categories (available_minutes : Nat) (start_point : String) : List (String × String) :=
  [("lower energy", lower_energy_text available_minutes),
   ("higher energy", higher_energy_text),
   ("indoor swap", indoor_swap_text),
   ("no materials", no_materials_text start_point)]

/-- The `existing` list of `_ensure_plan_b_variants`: stripped non-empty
variants. -/
def plan_b_existing (plan : ActivityPlan) : List String :=
  plan.variants.filterMap (fun v =>
    let s := pyStrip v
    if s.isEmpty then none else some s)

/-- The `missing` list of `_ensure_plan_b_variants`: canned texts of the
categories whose label does not occur in the case-folded join of the
existing variants. -/
def plan_b_missing (plan : ActivityPlan) (available_minutes : Nat)
    (start_point : String) : List String :=
  let normalized := casefoldL (joinSep "\n" (plan_b_existing plan)).data
  ((plan_b_categories available_minutes start_point).filter
    (fun c => !(subL c.1.data normalized))).map Prod.snd

/-- `_ensure_plan_b_variants(plan, available_minutes, start_point)`. -/
def ensure_plan_b_variants (plan : ActivityPlan) (available_minutes : Nat)
    (start_point : String) : ActivityPlan :=
  { plan with variants :=
      plan_b_existing plan ++ plan_b_missing plan available_minutes start_point }

/-- `f"{x:.2f}"` for the (never re-read) budget constraint string; rendered
with floor rounding, which is exact for the two-decimal budgets the UI
produces. -/
def pyFormat2f (q : PyFloat) : String :=
  let cents := q.num * 100 / q.den
  toString (cents / 100) ++ "." ++ padNat 2 (cents % 100).toNat

/-- `_build_activity_request(adventure, criteria)`. -/
def build_activity_request (adventure : MicroAdventure)
    (criteria : ActivitySearchCriteria) : ActivityRequest :=
  let age_years := (PyFloat.ofNat 0).pymax criteria.child_age_years
  let indoor_outdoor :=
    if (adventure.tags.map pyLower).contains "indoor" then IndoorOutdoor.indoor
    else IndoorOutdoor.outdoor
  { age_value := age_years,
    age_unit := AgeUnit.years,
    duration_minutes := adventure.duration_minutes,
    indoor_outdoor := indoor_outdoor,
    materials := adventure.packing_list,
    goals := criteria.goals.map domain_label,
    constraints :=
      ["Budget <= " ++ pyFormat2f criteria.budget_eur_max ++ " EUR",
       "Time window: " ++ timeIso criteria.time_window.start ++ "–"
         ++ timeIso criteria.time_window.stop,
       "Effort: " ++ criteria.effort] }

/-- `_fallback_activity_plan(adventure, criteria, weather)`: the template
fallback plan assembled from the adventure's own fields. -/
def fallback_activity_plan (adventure : MicroAdventure)
    (criteria : ActivitySearchCriteria) (weather : Option WeatherSummary) : ActivityPlan :=
  let supports := criteria.goals.map domain_label
  let weather_note :=
    match weather with
    | none => "Weather unavailable"
    | some w =>
      let joined := joinSep ", " w.derived_tags
      if joined.isEmpty then "Weather loaded" else joined
  ensure_plan_b_variants
    { title := adventure.title,
      summary := adventure.short ++ " (" ++ weather_note ++ ")",
      steps := adventure.route_steps,
      safety_notes :=
        if adventure.mitigations.isEmpty then ["Keep activity short and flexible."]
        else adventure.mitigations,
      parent_child_prompts := ensure_responsive_prompts
        (["Say: What do you want to explore first? / Do: Pause and follow your child\x27s choice.",
          "Say: Can you show me your favorite tiny discovery? / Do: Copy your child\x27s gesture and name it together."]
          ++ criteria.goals.map domain_prompt)
        supports,
      variants := adventure.variations
        ++ ["Short version for " ++ toString (availableMinutes criteria) ++ " minutes"],
      supports := supports }
    (availableMinutes criteria)
    adventure.start_point

/-- The generic material-adjusted summary sentence. -/
def material_adjusted_summary : String :=
  "Materialangepasste Version ohne nicht verfügbare Gegenstände. / Material-adjusted version without unavailable items."

/-- The `for substitution in substitutions_for(blocked): if not in: append` loop. -/
def append_new_substitutions (notes : List String) : List String → List String
  | [] => notes
  | s :: rest =>
    append_new_substitutions (if decide (s ∈ notes) then notes else notes ++ [s]) rest

/-- `_enforce_material_constraints(plan, criteria)`. -/
def enforce_material_constraints (plan : ActivityPlan)
    (criteria : ActivitySearchCriteria) : ActivityPlan :=
  let blocked := blocked_materials criteria.available_materials
  if blocked.isEmpty then plan
  else
    let clean := fun (items : List String) =>
      items.filter (fun item => (material_matches_blocklist item blocked).isEmpty)
    let safety_notes := append_new_substitutions plan.safety_notes (substitutions_for blocked)
    let summary :=
      if (material_matches_blocklist plan.summary blocked).isEmpty then plan.summary
      else material_adjusted_summary
    { plan with
        summary := summary,
        steps := clean plan.steps,
        variants := clean plan.variants,
        parent_child_prompts := clean plan.parent_child_prompts,
        safety_notes := safety_notes }

/-- `_safe_fallback_plan(request)`: the hardcoded conservative plan. -/
def safe_fallback_plan (request : ActivityRequest) : ActivityPlan :=
  ensure_plan_b_variants
    { title := "Sicheres Alternativprogramm / Safe fallback plan",
      summary :=
        "Wir zeigen eine sichere, altersgerechte Aktivität ohne riskante Elemente. / Showing a safe age-appropriate activity without risky elements.",
      steps :=
        ["Gemeinsam 5 ruhige Gegenstände in der Wohnung oder im Garten suchen.",
         "Farben benennen und die Gegenstände in eine sichere Sortier-Reihe legen.",
         "Kurze Bewegungsrunde: langsames Balancieren auf einer Linie am Boden.",
         "Mit Wasser trinken und einer ruhigen Abschlussfrage beenden."],
      safety_notes :=
        ["Nur weiche, große Materialien ohne Kleinteile verwenden.",
         "Keine Hitze, keine Flammen, keine scharfen Werkzeuge, keine Chemikalien.",
         "Aktivität jederzeit abbrechen, wenn Überforderung sichtbar ist."],
      parent_child_prompts := ensure_responsive_prompts
        ["Say: Welcher Gegenstand fühlt sich am weichsten an? / Do: Lass dein Kind zuerst zeigen und benennen.",
         "Say: Möchtest du noch eine ruhige Runde machen oder jetzt Pause? / Do: Übernimm die gewählte Option sofort."]
        request.goals,
      variants :=
        ["Kurzversion: nur 2 Schritte in " ++ toString (max 10 (request.duration_minutes / 2)) ++ " Minuten",
         "Indoor-Variante: Gegenstände nur in einem Zimmer finden"],
      supports := request.goals }
    request.duration_minutes
    "zu Hause / at home"

/-- `_apply_parent_script_mode(plan, criteria)`: the fixed 4-phase time-boxed
script, clamped to 6-20 minutes. -/
def apply_parent_script_mode (plan : ActivityPlan)
    (criteria : ActivitySearchCriteria) : ActivityPlan :=
  let total_minutes := max 6 (min 20 (availableMinutes criteria))
  let step_minutes := max 1 (total_minutes / 5)
  let final_minutes := max 1 (total_minutes - step_minutes * 4)
  ensure_plan_b_variants
    { title := plan.title ++ " · Elternskript / Parent script",
      summary :=
        "Kurzes, kindgeführtes 4-Schritte-Skript (Describe, Imitate, Praise, Active listening). Kaum Vorbereitung, direkt wiederholbar. / Short child-led 4-step script (Describe, Imitate, Praise, Active listening). Minimal prep and easy to repeat.",
      steps :=
        [toString step_minutes ++ " min – Describe: Beschreibe neutral, was dein Kind tut. / Describe what your child is doing without correcting.",
         toString step_minutes ++ " min – Imitate: Mache die Bewegung oder Idee deines Kindes nach. / Copy your child\x27s action and pace.",
         toString step_minutes ++ " min – Praise: Lobe konkret (\x27Du hast ... ausprobiert\x27). / Give specific praise for effort and choices.",
         toString step_minutes ++ " min – Active listening: Wiederhole die Worte deines Kindes und warte 5 Sekunden. / Reflect your child\x27s words and pause.",
         toString final_minutes ++ " min – Child-led repeat: Kind entscheidet, was wiederholt wird oder wie beendet wird. / Child chooses repeat or finish."],
      safety_notes :=
        if plan.safety_notes.isEmpty then
          ["Nur sichere, alltägliche Umgebung nutzen. / Use a safe everyday environment."]
        else plan.safety_notes,
      parent_child_prompts :=
        ["Say: Ich sehe, du stapelst die Steine. / I see you stacking the blocks.",
         "Say: Ich mache es wie du. / I will do it your way.",
         "Say: Stark, wie du drangeblieben bist. / Great effort, you kept trying.",
         "Say: Du willst noch einmal? / You want one more round?"],
      variants :=
        ["Null-Vorbereitung: Nutze das, was schon da ist (Kissen, Becher, Blätter). / Zero-prep: use what\x27s already there.",
         "Wiederholbar: Dasselbe Skript 1-2x täglich in 6-20 Minuten. / Repeatable: run the same script 1-2x daily in 6-20 minutes."],
      supports := plan.supports }
    (availableMinutes criteria)
    "zu Hause / at home"

/-- The standard pipeline tail shared by every `generate_activity_plan`
branch that starts from a built plan: validate (substituting the safe
fallback on rejection), apply parent-script mode, enforce materials. -/
def finalize_plan (plan : ActivityPlan) (request : ActivityRequest)
    (criteria : ActivitySearchCriteria) (plan_mode : PlanMode) : ActivityPlan :=
  let plan := if validate_activity_plan plan request then plan else safe_fallback_plan request
  let plan :=
    if plan_mode = PlanMode.parent_script then apply_parent_script_mode plan criteria
    else plan
  enforce_material_constraints plan criteria

/-- The `generate_activity_plan` branch taken when no LLM is enabled (and
when the `openai` import fails): template fallback, validate-or-safe-fallback,
optional parent script, material enforcement. -/
def generate_activity_plan_offline (adventure : MicroAdventure)
    (criteria : ActivitySearchCriteria) (weather : Option WeatherSummary)
    (plan_mode : PlanMode) : ActivityPlan :=
  let request := build_activity_request adventure criteria
  finalize_plan (fallback_activity_plan adventure criteria weather) request criteria plan_mode

/-! ## SHA-256 (the digest behind `_seed_int` in `recommender.py`) -/

/-- Truncate to 32 bits. -/
def w32 (n : Nat) : Nat := n % 4294967296

/-- 32-bit rotate right. -/
def rotr32 (k x : Nat) : Nat := w32 ((x >>> k) ||| (x <<< (32 - k)))

/-- SHA-256 Σ0. -/
def bigSigma0 (x : Nat) : Nat := rotr32 2 x ^^^ rotr32 13 x ^^^ rotr32 22 x

/-- SHA-256 Σ1. -/
def bigSigma1 (x : Nat) : Nat := rotr32 6 x ^^^ rotr32 11 x ^^^ rotr32 25 x

/-- SHA-256 σ0. -/
def smallSigma0 (x : Nat) : Nat := rotr32 7 x ^^^ rotr32 18 x ^^^ (x >>> 3)

/-- SHA-256 σ1. -/
def smallSigma1 (x : Nat) : Nat := rotr32 17 x ^^^ rotr32 19 x ^^^ (x >>> 10)

/-- SHA-256 Ch. -/
def shaCh (x y z : Nat) : Nat := (x &&& y) ^^^ ((x ^^^ 4294967295) &&& z)

/-- SHA-256 Maj. -/
def shaMaj (x y z : Nat) : Nat := (x &&& y) ^^^ (x &&& z) ^^^ (y &&& z)

/-- The 64 SHA-256 round constants of FIPS 180-4 (decimal). -/
def shaK : List Nat :=
  [1116352408, 1899447441, 3049323471, 3921009573, 961987163, 1508970993,
   2453635748, 2870763221, 3624381080, 310598401, 607225278, 1426881987,
   1925078388, 2162078206, 2614888103, 3248222580, 3835390401, 4022224774,
   264347078, 604807628, 770255983, 1249150122, 1555081692, 1996064986,
   2554220882, 2821834349, 2952996808, 3210313671, 3336571891, 3584528711,
   113926993, 338241895, 666307205, 773529912, 1294757372, 1396182291,
   1695183700, 1986661051, 2177026350, 2456956037, 2730485921, 2820302411,
   3259730800, 3345764771, 3516065817, 3600352804, 4094571909, 275423344,
   430227734, 506948616, 659060556, 883997877, 958139571, 1322822218,
   1537002063, 1747873779, 1955562222, 2024104815, 2227730452, 2361852424,
   2428436474, 2756734187, 3204031479, 3329325298]

/-- The SHA-256 initial hash value of FIPS 180-4 (decimal). -/
def shaH0 : List Nat :=
  [1779033703, 3144134277, 1013904242, 2773480762,
   1359893119, 2600822924, 528734635, 1541459225]

/-- Big-endian 8-byte encoding of the bit length. -/
def be64 (n : Nat) : List Nat :=
  [(n >>> 56) &&& 255, (n >>> 48) &&& 255, (n >>> 40) &&& 255, (n >>> 32) &&& 255,
   (n >>> 24) &&& 255, (n >>> 16) &&& 255, (n >>> 8) &&& 255, n &&& 255]

/-- SHA-256 padding: `0x80`, zeros to 56 mod 64, then the bit length. -/
def sha256_pad (msg : List Nat) : List Nat :=
  let len := msg.length
  let zeros := (120 - (len + 1) % 64) % 64
  msg ++ [128] ++ List.replicate zeros 0 ++ be64 (len * 8)

/-- Split into 64-byte blocks (fuelled to stay structurally recursive). -/
def chunks64Aux : Nat → List Nat → List (List Nat)
  | 0, _ => []
  | _, [] => []
  | fuel + 1, l => l.take 64 :: chunks64Aux fuel (l.drop 64)

/-- Split a padded message into its 64-byte blocks. -/
def chunks64 (l : List Nat) : List (List Nat) := chunks64Aux (l.length + 1) l

/-- Big-endian 4-byte groups to 32-bit words. -/
def bytesToWords : List Nat → List Nat
  | b0 :: b1 :: b2 :: b3 :: rest =>
    (b0 * 16777216 + b1 * 65536 + b2 * 256 + b3) :: bytesToWords rest
  | _ => []

/-- Extend the 16-word schedule to 64 words; the accumulator is kept
reversed so the last words sit at the front. -/
def extendWRev : Nat → List Nat → List Nat
  | 0, racc => racc
  | n + 1, racc =>
    let nw := w32 (smallSigma1 (racc.getD 1 0) + racc.getD 6 0
      + smallSigma0 (racc.getD 14 0) + racc.getD 15 0)
    extendWRev n (nw :: racc)

/-- One SHA-256 compression round; `kw` is `K[i] + W[i]`. -/
structure Sha256Regs where
  a : Nat
  b : Nat
  c : Nat
  d : Nat
  e : Nat
  f : Nat
  g : Nat
  h : Nat

/-- One round of the compression function. -/
def shaRound (st : Sha256Regs) (kw : Nat) : Sha256Regs :=
  let t1 := w32 (st.h + bigSigma1 st.e + shaCh st.e st.f st.g + kw)
  let t2 := w32 (bigSigma0 st.a + shaMaj st.a st.b st.c)
  ⟨w32 (t1 + t2), st.a, st.b, st.c, w32 (st.d + t1), st.e, st.f, st.g⟩

/-- Compress one 64-byte block into the running hash (8 words). -/
def sha256_compress (hs : List Nat) (block : List Nat) : List Nat :=
  let w := (extendWRev 48 (bytesToWords block).reverse).reverse
  let init : Sha256Regs :=
    ⟨hs.getD 0 0, hs.getD 1 0, hs.getD 2 0, hs.getD 3 0,
     hs.getD 4 0, hs.getD 5 0, hs.getD 6 0, hs.getD 7 0⟩
  let fin := (shaK.zip w).foldl (fun st p => shaRound st (p.1 + p.2)) init
  [w32 (hs.getD 0 0 + fin.a), w32 (hs.getD 1 0 + fin.b), w32 (hs.getD 2 0 + fin.c),
   w32 (hs.getD 3 0 + fin.d), w32 (hs.getD 4 0 + fin.e), w32 (hs.getD 5 0 + fin.f),
   w32 (hs.getD 6 0 + fin.g), w32 (hs.getD 7 0 + fin.h)]

/-- UTF-8 encoding of one character. -/
def utf8Char (c : Char) : List Nat :=
  let n := c.toNat
  if n < 128 then [n]
  else if n < 2048 then [192 + n / 64, 128 + n % 64]
  else if n < 65536 then [224 + n / 4096, 128 + n / 64 % 64, 128 + n % 64]
  else [240 + n / 262144, 128 + n / 4096 % 64, 128 + n / 64 % 64, 128 + n % 64]

/-- `s.encode("utf-8")`. -/
def utf8Encode (s : String) : List Nat := s.data.flatMap utf8Char

/-- Lower-case hex digit. -/
def hexChar (n : Nat) : Char :=
  if n < 10 then Char.ofNat (48 + n) else Char.ofNat (87 + n)

/-- Eight hex digits of a 32-bit word, most significant first. -/
def wordHex (w : Nat) : List Char :=
  [28, 24, 20, 16, 12, 8, 4, 0].map (fun s => hexChar ((w >>> s) &&& 15))

/-- `hashlib.sha256(bytes).hexdigest()`. -/
def sha256_hexdigest (msg : List Nat) : String :=
  String.mk (((chunks64 (sha256_pad msg)).foldl sha256_compress shaH0).flatMap wordHex)

/-- Value of a lower-case hex digit. -/
def hexVal (c : Char) : Nat := if c ≤ '9' then c.toNat - 48 else c.toNat - 87

/-- `int(hex_string, 16)`. -/
def hexToNat (l : List Char) : Nat := l.foldl (fun acc c => 16 * acc + hexVal c) 0

/-! ## Recommender (`recommender.py`) -/

/-- `_seed_int(*parts)`: first 16 hex digits of the SHA-256 of the
`"|"`-joined parts, read as an integer. -/
def seed_int (parts : List String) : Nat :=
  hexToNat ((sha256_hexdigest (utf8Encode (joinSep "|" parts))).data.take 16)

/-- `str(criteria.radius_km)`: the decimal rendering of a Python float.  Only
its congruence (equal values render equally) is load-bearing for any claim;
non-integral values are rendered as `num/den`. -/
def pyFloatStr (q : PyFloat) : String :=
  if q.den = 1 then toString q.num ++ ".0"
  else toString q.num ++ "/" ++ toString q.den

/-- `matches_topics(adventure, topics)`. -/
def matches_topics (adventure : MicroAdventure) (topics : List String) : Bool :=
  if topics.isEmpty then true
  else
    let adv_signals := adventure.tags ++ adventure.weather_tags
      ++ adventure.mood_tags ++ adventure.season_tags
    topics.any (fun topic_key =>
      (theme_match_tags topic_key).any (fun tag => adv_signals.contains tag))

/-- `filter_adventures(adventures, criteria)`: time, effort-gating and topic
rules, expressed as one `filter` predicate (the source's continue-chain). -/
def filter_adventures (adventures : List MicroAdventure)
    (criteria : ActivitySearchCriteria) : List MicroAdventure :=
  adventures.filter (fun a =>
    decide (a.duration_minutes ≤ availableMinutes criteria)
    && (if criteria.effort == "niedrig" then
          !(a.energy_level == "hoch")
            && !(a.difficulty == "mittel" || a.difficulty == "anspruchsvoll")
        else if criteria.effort == "mittel" then !(a.difficulty == "anspruchsvoll")
        else true)
    && matches_topics a criteria.topics)

/-- `_goal_signals(goal)` (a Python set; membership-only). -/
def goal_signals : DevelopmentDomain → List String
  | DevelopmentDomain.gross_motor => ["Grobmotorik", "Bewegung", "Koordination", "Körpergefühl"]
  | DevelopmentDomain.fine_motor => ["Feinmotorik", "Hand-Auge", "Greifen", "Sortieren"]
  | DevelopmentDomain.language => ["Sprache", "Wortschatz", "Erzählen", "Hypothesen"]
  | DevelopmentDomain.social_emotional => ["Empathie", "Teamwork", "Sozial", "Respekt", "Bindung"]
  | DevelopmentDomain.sensory => ["Sensorik", "Achtsamkeit", "Wahrnehmung"]
  | DevelopmentDomain.cognitive => ["Kategorisieren", "Gedächtnis", "Vergleich", "Ursache/Wirkung"]

/-- `score_adventure(adventure, criteria, weather)`: additive heuristic
score; Python float literals 1.5, 1.0, 1.25, -0.25, 0.5, 0.25, 0.2 are the
exact rationals below. -/
def score_adventure (adventure : MicroAdventure) (criteria : ActivitySearchCriteria)
    (weather : Option WeatherSummary) : PyFloat :=
  let score : PyFloat := PyFloat.ofNat 0
  let score := if subL "Volksgarten".data adventure.area.data then score.add ⟨3, 2⟩ else score
  let score :=
    if criteria.topics.isEmpty then score
    else
      let adv_signals := adventure.tags ++ adventure.weather_tags
        ++ adventure.mood_tags ++ adventure.season_tags
      criteria.topics.foldl (fun sc topic_key =>
        if (theme_match_tags topic_key).any (fun tag => adv_signals.contains tag) then
          sc.add ⟨1, 1⟩
        else sc) score
  let score :=
    match weather with
    | none => score
    | some w =>
      let score := w.derived_tags.foldl (fun sc wt =>
        if adventure.weather_tags.contains wt then sc.add ⟨5, 4⟩ else sc) score
      if w.derived_tags.contains "Regen" && adventure.safety_level == "erhöht" then
        score.add ⟨-1, 4⟩
      else score
  let score :=
    if criteria.effort == "niedrig" then
      let score := if adventure.energy_level == "niedrig" then score.add ⟨1, 2⟩ else score
      if adventure.difficulty == "leicht" then score.add ⟨1, 2⟩ else score
    else if criteria.effort == "hoch" then
      let score := if adventure.energy_level == "hoch" then score.add ⟨1, 2⟩ else score
      if adventure.difficulty == "mittel" || adventure.difficulty == "anspruchsvoll" then
        score.add ⟨1, 4⟩
      else score
    else score
  let benefit_signals := adventure.toddler_benefits ++ adventure.tags ++ adventure.mood_tags
  let score := criteria.goals.foldl (fun sc goal =>
    if (goal_signals goal).any (fun s => benefit_signals.contains s) then sc.add ⟨1, 1⟩
    else sc) score
  if adventure.safety_level == "niedrig" then score.add ⟨1, 5⟩ else score

/-- Stable insertion for a descending sort: a new element goes after every
element of strictly greater or equal score. -/
def insertByScoreDesc (x : MicroAdventure × PyFloat) :
    List (MicroAdventure × PyFloat) → List (MicroAdventure × PyFloat)
  | [] => [x]
  | y :: t => if PyFloat.ltB y.2 x.2 then x :: y :: t else y :: insertByScoreDesc x t

/-- `scored.sort(key=lambda x: x[1], reverse=True)`: Python's sort is stable,
so a stable insertion sort by descending score computes the same list. -/
def sortByScoreDesc (l : List (MicroAdventure × PyFloat)) :
    List (MicroAdventure × PyFloat) :=
  l.foldl (fun acc x => insertByScoreDesc x acc) []

/-- Models `random.Random(seed).choice(seq)` as selecting index
`seed % len(seq)`.  CPython's seeded Mersenne-Twister choice is likewise a
pure function of `(seed, seq)` that yields an element of `seq` and raises
`IndexError` on an empty sequence; those are the only properties of the
library call any claim depends on, and they are preserved exactly. -/
def seeded_choice_index (seed n : Nat) : Nat := seed % n

/-- Sequence indexing (`seq[i]`), `none` standing for `IndexError`. -/
def listGet? {α : Type} : List α → Nat → Option α
  | [], _ => none
  | a :: _, 0 => some a
  | _ :: t, n + 1 => listGet? t n

/-- The seed `pick_daily_adventure` hands to `random.Random`:
`_seed_int(criteria.date.isoformat(), criteria.plz, str(criteria.radius_km), criteria.effort)`. -/
def pick_seed (criteria : ActivitySearchCriteria) : Nat :=
  seed_int [isoformat criteria.date, criteria.plz,
    pyFloatStr criteria.radius_km, criteria.effort]

/-- The candidate list of `pick_daily_adventure`: the filtered catalog, or
the whole catalog when the filter is empty. -/
def pick_candidates (adventures : List MicroAdventure)
    (criteria : ActivitySearchCriteria) : List MicroAdventure :=
  let candidates := filter_adventures adventures criteria
  if candidates.isEmpty then adventures else candidates

/-- The top-N list of `pick_daily_adventure`: candidates scored, stably
sorted by descending score, truncated to `max(3, min(8, len))`. -/
def pick_top (adventures : List MicroAdventure)
    (criteria : ActivitySearchCriteria) (weather : Option WeatherSummary) :
    List MicroAdventure :=
  let scored := (pick_candidates adventures criteria).map
    (fun a => (a, score_adventure a criteria weather))
  let sorted := sortByScoreDesc scored
  let top_n := max 3 (min 8 sorted.length)
  (sorted.take top_n).map Prod.fst

/-- `pick_daily_adventure(adventures, criteria, weather)`.  Returns `none`
exactly on the empty-sequence `IndexError` of `rng.choice`. -/
def pick_daily_adventure (adventures : List MicroAdventure)
    (criteria : ActivitySearchCriteria) (weather : Option WeatherSummary) :
    Option (MicroAdventure × List MicroAdventure) :=
  let top := pick_top adventures criteria weather
  match listGet? top (seeded_choice_index (pick_seed criteria) top.length) with
  | some picked => some (picked, pick_candidates adventures criteria)
  | none => none

/-! ## Generation failure handling (`openai_gen.py`, `generate_activity_plan`) -/

/-- A raised exception from the generation collaborator: the fields
`_is_retryable_openai_error` and the `except` clauses inspect. -/
structure PyError where
  status_code : Option Nat
  message : String
  is_validation_error : Bool
  deriving Repr, DecidableEq

/-- `_is_retryable_openai_error(exc)`. -/
def is_retryable_openai_error (e : PyError) : Bool :=
  match e.status_code with
  | some code => [429, 500, 502, 503, 504].contains code
  | none =>
    let lower_message := pyLower e.message
    ["timeout", "timed out", "temporar", "rate limit", "too many requests",
     "service unavailable"].any (fun marker => strIn marker lower_message)

/-- Modelled from the spec: the retry helper `openai_gen.py` imports
(`src/src/mikroabenteuer/retry.py`) is not among the provided sources; only
its sibling `src/mikroabenteuer/retry.py` (without the `should_retry`
keyword the caller passes) is.  Following the spec's collaborator contract
("up to 3 attempts with exponential backoff before giving up") and that
sibling, the wrapped call runs up to `fuel + 1` times, retries only failures
accepted by `should_retry`, and re-raises the final failure; the backoff
sleep has no observable effect here.  `calls i` is the outcome of attempt
`i` of the collaborator. -/
def retry_attempts (should_retry : PyError → Bool)
    (calls : Nat → Except PyError ActivityPlan) :
    Nat → Nat → Except PyError ActivityPlan
  | i, 0 => calls i
  | i, fuel + 1 =>
    match calls i with
    | Except.ok p => Except.ok p
    | Except.error e =>
      if should_retry e then retry_attempts should_retry calls (i + 1) fuel
      else Except.error e

/-- The pipeline tail of the two recovery branches (`except ValidationError`
and the retryable `except Exception` branch): safe fallback, optional
parent-script transform, material enforcement — without re-validation. -/
def fallback_after_failure (request : ActivityRequest)
    (criteria : ActivitySearchCriteria) (plan_mode : PlanMode) : ActivityPlan :=
  let plan := safe_fallback_plan request
  let plan :=
    if plan_mode = PlanMode.parent_script then apply_parent_script_mode plan criteria
    else plan
  enforce_material_constraints plan criteria

/-- The LLM-enabled `generate_activity_plan` flow after the client is built:
retry the collaborator up to 3 attempts, then the `try/except` ladder of the
source — success is validated and post-processed, a pydantic
`ValidationError` or a retryable exception degrades to the safe fallback,
and any other exception is re-raised as `ActivityGenerationError` (modelled
as `Except.error` carrying `str(exc)`). -/
def generate_activity_plan_llm (calls : Nat → Except PyError ActivityPlan)
    (adventure : MicroAdventure) (criteria : ActivitySearchCriteria)
    (plan_mode : PlanMode) : Except String ActivityPlan :=
  let request := build_activity_request adventure criteria
  match retry_attempts is_retryable_openai_error calls 0 2 with
  | Except.ok plan => Except.ok (finalize_plan plan request criteria plan_mode)
  | Except.error e =>
    if e.is_validation_error then Except.ok (fallback_after_failure request criteria plan_mode)
    else if is_retryable_openai_error e then
      Except.ok (fallback_after_failure request criteria plan_mode)
    else Except.error e.message

/-! ## Concrete fixtures (mirroring the repository's test data) -/

/-- The baseline safe plan of `tests/test_safety.py`. -/
def baseline_plan : ActivityPlan :=
  { title := "Farbspiel",
    summary := "Wir sortieren sichere, große Gegenstände.",
    steps := ["Lege große Bausteine nach Farben."],
    safety_notes := ["Nur kindgerechte Materialien verwenden."],
    parent_child_prompts := ["Welche Farbe gefällt dir?"],
    variants := ["Kurzversion mit zwei Farben."],
    supports := [] }

/-- `_plan_with_trigger` of `tests/test_safety.py`. -/
def plan_with_trigger (plan : ActivityPlan) (trigger : String) : ActivityPlan :=
  { plan with
      summary := plan.summary ++ " Trigger: " ++ trigger ++ ".",
      steps := plan.steps ++ ["Nutze: " ++ trigger ++ "."] }

/-- A 30-month-old request (the `request_under_three` fixture). -/
def request_under_three : ActivityRequest :=
  { age_value := ⟨30, 1⟩, age_unit := AgeUnit.months, duration_minutes := 20,
    indoor_outdoor := IndoorOutdoor.indoor, materials := ["Papier"],
    goals := ["Sensorik"], constraints := [] }

/-- A 48-month-old request (months form of the under-six test fixture). -/
def request_four_years : ActivityRequest :=
  { age_value := ⟨48, 1⟩, age_unit := AgeUnit.months, duration_minutes := 20,
    indoor_outdoor := IndoorOutdoor.indoor, materials := ["Kinderschere"],
    goals := ["Feinmotorik"], constraints := [] }

/-- A 72-month-old request. -/
def request_six_years : ActivityRequest :=
  { age_value := ⟨72, 1⟩, age_unit := AgeUnit.months, duration_minutes := 20,
    indoor_outdoor := IndoorOutdoor.indoor, materials := [], goals := [],
    constraints := [] }

/-- The supervised-Kinderschere plan of
`test_validator_allows_kinderschere_for_under_six_with_supervision`. -/
def kinderschere_plan : ActivityPlan :=
  { title := "Schneide-Spiel",
    summary := "Nutze eine Kinderschere unter Aufsicht.",
    steps := ["Schneide einfache Formen aus Papier aus."],
    safety_notes := ["Nur mit Kinderschere und unter Aufsicht schneiden."],
    parent_child_prompts := ["Möchtest du zuerst eine gerade Linie schneiden?"],
    variants := ["Formen alternativ reißen."],
    supports := [] }

/-- The `test_openai_resilience.py` adventure fixture, with one variation
renamed so that it both carries the `lower energy` Plan-B label and matches
the paper alias list. -/
def example_adventure : MicroAdventure :=
  { slug := "wald-mini", title := "Wald-Mini", area := "Volksgarten",
    short := "Kurzer Entdeckerweg", duration_minutes := 45, distance_km := ⟨6, 5⟩,
    best_time := "vormittags", stroller_ok := true, start_point := "Parkeingang",
    route_steps := ["Losgehen", "Steine sammeln"], preparation := ["Wetter prüfen"],
    packing_list := ["Wasser", "Snack"], execution_tips := ["Pausen einplanen"],
    variations := ["lower energy Papier-Spiel"],
    toddler_benefits := ["Motorik", "Neugier"], carla_tip := "Kurz halten",
    risks := ["Nasse Wege"], mitigations := ["Feste Schuhe"], tags := ["outdoor"],
    accessibility := [], season_tags := [], weather_tags := [],
    energy_level := "mittel", difficulty := "leicht", age_min := ⟨2, 1⟩,
    age_max := ⟨6, 1⟩, mood_tags := [], safety_level := "niedrig" }

/-- The `test_openai_resilience.py` criteria fixture (9:00-10:00 window). -/
def example_criteria : ActivitySearchCriteria :=
  { plz := "40215", radius_km := ⟨5, 1⟩, date := ⟨2026, 2, 14⟩,
    time_window := ⟨⟨9 * 3600⟩, ⟨10 * 3600⟩⟩, effort := "mittel",
    budget_eur_max := ⟨20, 1⟩, child_age_years := ⟨5, 1⟩, topics := ["natur"],
    location_preference := IndoorOutdoor.mixed,
    goals := [DevelopmentDomain.fine_motor], constraints := [],
    available_materials := [], max_suggestions := 5 }

/-- `example_criteria` with every household material except paper available
(so exactly `paper` is blocked). -/
def criteria_paper_blocked : ActivitySearchCriteria :=
  { example_criteria with
      available_materials := ["pens", "tape", "scissors", "bowls", "rice", "flashlight"] }

/-- `example_criteria` with every household material except rice available
(so exactly `rice` is blocked). -/
def criteria_rice_blocked : ActivitySearchCriteria :=
  { example_criteria with
      available_materials := ["paper", "pens", "tape", "scissors", "bowls", "flashlight"] }

/-- `example_criteria` with a 9:00-9:30 window (30 available minutes). -/
def criteria_short_window : ActivitySearchCriteria :=
  { example_criteria with time_window := ⟨⟨9 * 3600⟩, ⟨9 * 3600 + 30 * 60⟩⟩ }

/-- A non-transient generation failure: an authentication error with HTTP
status 401 (not in the retryable set, no transient marker). -/
def auth_error : PyError :=
  { status_code := some 401, message := "invalid api key", is_validation_error := false }

/-- `example_criteria` without topics (so the topic rule matches everything). -/
def criteria_no_topics : ActivitySearchCriteria :=
  { example_criteria with topics := [] }

/-- `criteria_no_topics` with a 9:00-11:00 window (120 available minutes). -/
def criteria_no_topics_long : ActivitySearchCriteria :=
  { example_criteria with topics := [], time_window := ⟨⟨9 * 3600⟩, ⟨11 * 3600⟩⟩ }

/-! ## Helper lemmas: substrings, case folding and joins -/

theorem subL_iff (n : List Char) : ∀ h : List Char, subL n h = true ↔ n <:+: h := by
  intro h
  induction h with
  | nil =>
    simp [subL, List.isEmpty_iff, List.infix_nil]
  | cons c t ih =>
    simp [subL, Bool.or_eq_true, List.isPrefixOf_iff_prefix, ih, List.infix_cons_iff]

theorem subL_grow_right {n h : List Char} (t : List Char) (hs : subL n h = true) :
    subL n (h ++ t) = true := by
  rw [subL_iff] at hs ⊢
  exact hs.trans ⟨[], t, by simp⟩

theorem subL_grow_left {n h : List Char} (t : List Char) (hs : subL n h = true) :
    subL n (t ++ h) = true := by
  rw [subL_iff] at hs ⊢
  exact hs.trans ⟨t, [], by simp⟩

theorem casefoldL_append (a b : List Char) :
    casefoldL (a ++ b) = casefoldL a ++ casefoldL b := by
  simp [casefoldL]

theorem casefoldL_mono {a b : List Char} (h : a <:+: b) :
    casefoldL a <:+: casefoldL b := by
  obtain ⟨s, t, rfl⟩ := h
  exact ⟨casefoldL s, casefoldL t, by simp [casefoldL_append]⟩

theorem joinSep_cons₂ (sep a b : String) (t : List String) :
    joinSep sep (a :: b :: t) = a ++ sep ++ joinSep sep (b :: t) := rfl

theorem joinSep_data_infix_of_mem (sep : String) {m : String} :
    ∀ {l : List String}, m ∈ l → m.data <:+: (joinSep sep l).data := by
  intro l
  induction l with
  | nil => simp
  | cons a rest ih =>
    intro hm
    cases rest with
    | nil =>
      rcases List.mem_cons.mp hm with rfl | hm'
      · exact List.infix_refl _
      · simp at hm'
    | cons b t =>
      rcases List.mem_cons.mp hm with rfl | hm'
      · rw [joinSep_cons₂, String.data_append, String.data_append]
        exact ⟨[], sep.data ++ (joinSep sep (b :: t)).data, by simp⟩
      · have h := ih hm'
        rw [joinSep_cons₂, String.data_append, String.data_append]
        exact h.trans ⟨a.data ++ sep.data, [], by simp⟩

theorem joinSep_data_grows (sep : String) :
    ∀ (l : List String), l ≠ [] → ∀ more : List String,
      (joinSep sep l).data <+: (joinSep sep (l ++ more)).data := by
  intro l
  induction l with
  | nil => intro h; exact absurd rfl h
  | cons a rest ih =>
    intro _ more
    cases rest with
    | nil =>
      cases more with
      | nil => simp
      | cons m ms =>
        show a.data <+: (joinSep sep (a :: m :: ms)).data
        rw [joinSep_cons₂, String.data_append, String.data_append]
        exact ⟨sep.data ++ (joinSep sep (m :: ms)).data, by simp⟩
    | cons b t =>
      obtain ⟨r, hr⟩ := ih (by simp) more
      refine ⟨r, ?_⟩
      show (a ++ sep ++ joinSep sep (b :: t)).data ++ r
        = (a ++ sep ++ joinSep sep ((b :: t) ++ more)).data
      rw [String.data_append, String.data_append, String.data_append,
        String.data_append, List.append_assoc, List.append_assoc, ← hr,
        List.append_assoc]

theorem subL_joinSep_of_mem (sep : String) (n : List Char) {m : String}
    {l : List String} (hm : m ∈ l) (h : subL n (casefoldL m.data) = true) :
    subL n (casefoldL (joinSep sep l).data) = true := by
  rw [subL_iff] at h ⊢
  exact h.trans (casefoldL_mono (joinSep_data_infix_of_mem sep hm))

theorem subL_joinSep_grow (sep : String) (n : List Char) {l : List String}
    (more : List String) (hne : l ≠ [])
    (h : subL n (casefoldL (joinSep sep l).data) = true) :
    subL n (casefoldL (joinSep sep (l ++ more)).data) = true := by
  rw [subL_iff] at h ⊢
  exact h.trans (casefoldL_mono (joinSep_data_grows sep l hne more).isInfix)

/-! ## Helper lemmas: Plan-B variant completion -/

theorem lower_energy_text_label (am : Nat) :
    subL "lower energy".data (casefoldL (lower_energy_text am).data) = true := by
  unfold lower_energy_text
  simp only [String.data_append, casefoldL_append]
  apply subL_grow_right
  apply subL_grow_right
  apply subL_grow_right
  apply subL_grow_right
  decide

theorem no_materials_text_label (sp : String) :
    subL "no materials".data (casefoldL (no_materials_text sp).data) = true := by
  unfold no_materials_text
  simp only [String.data_append, casefoldL_append]
  apply subL_grow_right
  apply subL_grow_right
  decide

theorem ensure_plan_b_label (plan : ActivityPlan) (am : Nat) (sp : String)
    {label text : String} (hlbl : label.data ≠ [])
    (hcat : (label, text) ∈ plan_b_categories am sp)
    (htext : subL label.data (casefoldL text.data) = true) :
    subL label.data
      (casefoldL (joinSep "\n" (ensure_plan_b_variants plan am sp).variants).data)
      = true := by
  show subL label.data
    (casefoldL (joinSep "\n" (plan_b_existing plan ++ plan_b_missing plan am sp)).data)
    = true
  by_cases hsub :
      subL label.data (casefoldL (joinSep "\n" (plan_b_existing plan)).data) = true
  · have hne : plan_b_existing plan ≠ [] := by
      intro h0
      rw [h0] at hsub
      simp only [joinSep, casefoldL, List.flatMap_nil, subL, List.isEmpty_iff] at hsub
      exact hlbl hsub
    exact subL_joinSep_grow "\n" label.data _ hne hsub
  · have hmem : text ∈ plan_b_missing plan am sp := by
      simp only [plan_b_missing]
      refine List.mem_map.mpr ⟨(label, text), List.mem_filter.mpr ⟨hcat, ?_⟩, rfl⟩
      simp only [Bool.not_eq_true', Bool.not_eq_true] at hsub ⊢
      exact hsub
    exact subL_joinSep_of_mem "\n" label.data (List.mem_append.mpr (Or.inr hmem)) htext

/-! ## Helper lemmas: the seeded pick -/

theorem mem_insertByScoreDesc {x y : MicroAdventure × PyFloat} :
    ∀ {l}, y ∈ insertByScoreDesc x l ↔ y = x ∨ y ∈ l := by
  intro l
  induction l with
  | nil => simp [insertByScoreDesc]
  | cons z t ih =>
    simp only [insertByScoreDesc]
    by_cases h : PyFloat.ltB z.2 x.2
    · simp [h, List.mem_cons]
    · simp [h, ih, List.mem_cons]
      tauto

theorem mem_sortByScoreDesc_aux (y : MicroAdventure × PyFloat) :
    ∀ (l acc : List (MicroAdventure × PyFloat)),
      y ∈ l.foldl (fun acc x => insertByScoreDesc x acc) acc ↔ y ∈ acc ∨ y ∈ l := by
  intro l
  induction l with
  | nil => simp
  | cons x t ih =>
    intro acc
    simp only [List.foldl_cons, ih, mem_insertByScoreDesc, List.mem_cons]
    tauto

theorem mem_sortByScoreDesc {y : MicroAdventure × PyFloat}
    {l : List (MicroAdventure × PyFloat)} : y ∈ sortByScoreDesc l ↔ y ∈ l := by
  unfold sortByScoreDesc
  rw [mem_sortByScoreDesc_aux]
  simp

theorem listGet?_of_lt {α : Type} :
    ∀ (l : List α) (n : Nat), n < l.length →
      ∃ x, listGet? l n = some x ∧ x ∈ l := by
  intro l
  induction l with
  | nil => intro n h; simp at h
  | cons a t ih =>
    intro n h
    cases n with
    | zero => exact ⟨a, rfl, List.mem_cons_self a t⟩
    | succ n =>
      obtain ⟨x, hx, hm⟩ := ih n (by simpa using h)
      exact ⟨x, hx, List.mem_cons_of_mem _ hm⟩

theorem pick_candidates_subset (advs : List MicroAdventure)
    (c : ActivitySearchCriteria) : ∀ a ∈ pick_candidates advs c, a ∈ advs := by
  intro a ha
  unfold pick_candidates at ha
  by_cases h : (filter_adventures advs c).isEmpty
  · simpa [h] using ha
  · simp only [h, if_false] at ha
    unfold filter_adventures at ha
    exact (List.mem_filter.mp ha).1

theorem pick_candidates_ne_nil (advs : List MicroAdventure)
    (c : ActivitySearchCriteria) (h : advs ≠ []) : pick_candidates advs c ≠ [] := by
  unfold pick_candidates
  by_cases he : (filter_adventures advs c).isEmpty
  · simpa [he] using h
  · simpa [he] using (List.isEmpty_iff (l := filter_adventures advs c)).not.mp
      (by simp [he])

theorem take_map_fst_ne_nil (n : Nat) (z : MicroAdventure × PyFloat)
    (zs : List (MicroAdventure × PyFloat)) (hn : n ≠ 0) :
    (((z :: zs).take n).map Prod.fst) ≠ [] := by
  cases n with
  | zero => exact absurd rfl hn
  | succ m => simp [List.take]

theorem pick_top_ne_nil (advs : List MicroAdventure) (c : ActivitySearchCriteria)
    (w : Option WeatherSummary) (h : advs ≠ []) : pick_top advs c w ≠ [] := by
  have hc := pick_candidates_ne_nil advs c h
  have hs : (pick_candidates advs c).map
      (fun a => (a, score_adventure a c w)) ≠ [] := by
    simpa using hc
  obtain ⟨y, hy⟩ := List.exists_mem_of_ne_nil _ hs
  have hys : y ∈ sortByScoreDesc ((pick_candidates advs c).map
      (fun a => (a, score_adventure a c w))) := mem_sortByScoreDesc.mpr hy
  have hsort : sortByScoreDesc ((pick_candidates advs c).map
      (fun a => (a, score_adventure a c w))) ≠ [] := List.ne_nil_of_mem hys
  obtain ⟨z, zs, hzz⟩ := List.exists_cons_of_ne_nil hsort
  simp only [pick_top, hzz]
  exact take_map_fst_ne_nil _ z zs (by omega)

theorem pick_top_subset (advs : List MicroAdventure) (c : ActivitySearchCriteria)
    (w : Option WeatherSummary) :
    ∀ x ∈ pick_top advs c w, x ∈ pick_candidates advs c := by
  intro x hx
  unfold pick_top at hx
  obtain ⟨p, hp, rfl⟩ := List.mem_map.mp hx
  have hp' := mem_sortByScoreDesc.mp (List.take_subset _ _ hp)
  obtain ⟨a, ha, rfl⟩ := List.mem_map.mp hp'
  exact ha

/-! ## Helper lemmas: material substitutions -/

theorem append_new_substitutions_eq :
    ∀ (subs notes : List String), subs.Nodup →
      append_new_substitutions notes subs
        = notes ++ subs.filter (fun s => !(decide (s ∈ notes))) := by
  intro subs
  induction subs with
  | nil => intro notes _; simp [append_new_substitutions]
  | cons s rest ih =>
    intro notes hnd
    have hs : s ∉ rest := (List.nodup_cons.mp hnd).1
    have hrest : rest.Nodup := (List.nodup_cons.mp hnd).2
    rw [show append_new_substitutions notes (s :: rest)
      = append_new_substitutions
          (if decide (s ∈ notes) then notes else notes ++ [s]) rest from rfl]
    by_cases hmem : s ∈ notes
    · rw [if_pos (decide_eq_true hmem)]
      rw [ih notes hrest]
      simp [List.filter_cons, hmem]
    · rw [if_neg (by simp [hmem])]
      rw [ih (notes ++ [s]) hrest]
      have hfilter : rest.filter (fun x => !(decide (x ∈ notes ++ [s])))
          = rest.filter (fun x => !(decide (x ∈ notes))) := by
        refine List.filter_congr (fun x hx => ?_)
        have hxs : x ≠ s := fun hxe => hs (hxe ▸ hx)
        simp [List.mem_append, hxs]
      rw [hfilter]
      simp [List.filter_cons, hmem]

theorem substitutions_for_nodup (blocked : List String) :
    (substitutions_for blocked).Nodup := by
  unfold substitutions_for
  exact ((List.filter_sublist _).map material_substitution).nodup (by decide)

/-! ## Helper lemmas: retries and ages -/

theorem retry_attempts_const_error (sr : PyError → Bool) (e : PyError) :
    ∀ (fuel i : Nat),
      retry_attempts sr (fun _ => Except.error e) i fuel = Except.error e := by
  intro fuel
  induction fuel with
  | zero => intro i; rfl
  | succ f ih =>
    intro i
    simp only [retry_attempts]
    by_cases h : sr e <;> simp [h, ih]

theorem PyFloat.not_lt36_of_not_lt72 {x : PyFloat} (hden : 0 ≤ x.den)
    (h : x.ltB (PyFloat.ofNat 72) = false) : x.ltB (PyFloat.ofNat 36) = false := by
  simp only [PyFloat.ltB, PyFloat.ofNat, decide_eq_false_iff_not, not_lt,
    mul_one] at h ⊢
  push_cast at h ⊢
  nlinarith [h, hden, mul_le_mul_of_nonneg_right (by norm_num : (36 : Int) ≤ 72) hden]

/-! ## Claim theorems -/

/-- C1: for every `ActivityPlan` and every `ActivityRequest`, if the
case-folded concatenation of the plan's title, summary, steps, safety notes,
prompts and variants contains any keyword of the always-blocked set, then
`validate_activity_plan(plan, request)` returns `False`, regardless of the
request's age value and age unit. -/
theorem validator_hard_block (plan : ActivityPlan) (request : ActivityRequest)
    (h : ∃ kw ∈ always_blocked_keywords, subL kw.data (plan_haystack plan) = true) :
    validate_activity_plan plan request = false := by
  have hany : always_blocked_keywords.any
      (fun kw => subL kw.data (plan_haystack plan)) = true := List.any_eq_true.mpr h
  simp [validate_activity_plan, hany]

set_option maxRecDepth 100000 in
/-- Witness for C1: the `Kerze` trigger plan of `tests/test_safety.py` is
rejected for a 30-month-old request. -/
theorem validator_hard_block_witness :
    validate_activity_plan (plan_with_trigger baseline_plan "Kerze")
      request_under_three = false :=
  validator_hard_block _ _ ⟨"kerze", by decide, by decide⟩

set_option maxRecDepth 1000000 in
/-- C2 counterexample: the supervised-Kinderschere plan of the repository's
own test suite mentions scissors, carries both the child-safe and the
supervision marker, and is presented for a 48-month-old (younger than 72
months) — yet `validate_activity_plan` returns `True`, where the claim says
it returns `False` even with both markers present. -/
theorem scissors_under72_with_markers_accepted :
    validate_activity_plan kinderschere_plan request_four_years = true
    ∧ scissors_keywords.any
        (fun kw => subL kw.data (plan_haystack kinderschere_plan)) = true
    ∧ (request_age_months request_four_years).ltB (PyFloat.ofNat 72) = true
    ∧ child_safe_markers.any
        (fun m => subL m.data (plan_haystack kinderschere_plan)) = true
    ∧ supervision_markers.any
        (fun m => subL m.data (plan_haystack kinderschere_plan)) = true := by
  decide

/-- C2 amended: when the text mentions scissors and the request's age is
under 72 months, `validate_activity_plan` returns `False` unless the text
contains both a child-safe-scissors marker and a supervision marker; with
both markers present the scissors rule does not reject (the repository's
test `test_validator_allows_kinderschere_for_under_six_with_supervision`
demands acceptance at 48 months), and at 72 months or older the marker
requirement is not checked at all. -/
theorem scissors_gate_under72 (plan : ActivityPlan) (request : ActivityRequest)
    (hsc : scissors_keywords.any (fun kw => subL kw.data (plan_haystack plan)) = true)
    (hage : (request_age_months request).ltB (PyFloat.ofNat 72) = true)
    (hmark : (child_safe_markers.any (fun m => subL m.data (plan_haystack plan))
        && supervision_markers.any (fun m => subL m.data (plan_haystack plan)))
        = false) :
    validate_activity_plan plan request = false := by
  unfold validate_activity_plan
  by_cases hb : always_blocked_keywords.any
      (fun kw => subL kw.data (plan_haystack plan)) = true
  · simp [hb]
  · rw [Bool.not_eq_true] at hb
    simp [hb, hsc, hage, hmark]

set_option maxRecDepth 100000 in
/-- Witness for the amended C2: a bare `Schere` mention without markers is
rejected for a 30-month-old. -/
theorem scissors_gate_under72_witness :
    validate_activity_plan (plan_with_trigger baseline_plan "Schere")
      request_under_three = false :=
  scissors_gate_under72 _ _ (by decide) (by decide) (by decide)

/-- C3: for a plan containing a choking-hazard keyword that triggers neither
the always-blocked rule nor the scissors rule, `validate_activity_plan`
returns `False` exactly when the request's age (months, or years times 12)
is under 36 months, and `True` otherwise. -/
theorem choking_age_gate (plan : ActivityPlan) (request : ActivityRequest)
    (hchok : under_three_keywords.any
      (fun kw => subL kw.data (plan_haystack plan)) = true)
    (hblock : always_blocked_keywords.any
      (fun kw => subL kw.data (plan_haystack plan)) = false)
    (hsciss : (scissors_keywords.any (fun kw => subL kw.data (plan_haystack plan))
        && (request_age_months request).ltB (PyFloat.ofNat 72)
        && !(child_safe_markers.any (fun m => subL m.data (plan_haystack plan))
              && supervision_markers.any (fun m => subL m.data (plan_haystack plan))))
        = false) :
    validate_activity_plan plan request
      = !((request_age_months request).ltB (PyFloat.ofNat 36)) := by
  simp only [validate_activity_plan]
  rw [hblock, hsciss]
  cases hlt : (request_age_months request).ltB (PyFloat.ofNat 36) <;>
    simp [hchok, hlt]

set_option maxRecDepth 100000 in
/-- Witness for C3: the `Perlen` trigger plan is rejected for a 30-month-old
(36-month threshold not reached). -/
theorem choking_age_gate_witness :
    validate_activity_plan (plan_with_trigger baseline_plan "Perlen")
      request_under_three
      = !((request_age_months request_under_three).ltB (PyFloat.ofNat 36)) :=
  choking_age_gate _ _ (by decide) (by decide) (by decide)

/-- C10: a request at least 72 months old passes the validator on a plan
that mentions scissors with neither a child-safe marker nor a supervision
marker, provided no always-blocked keyword occurs (at such ages the choking
rule can never fire, and the marker requirement is only checked under 72
months).  `hden` records that the age is a well-formed float (positive
denominator), which every constructed request satisfies. -/
theorem scissors_free_pass_at_72 (plan : ActivityPlan) (request : ActivityRequest)
    (hage : (request_age_months request).ltB (PyFloat.ofNat 72) = false)
    (hden : 0 ≤ (request_age_months request).den)
    (hblock : always_blocked_keywords.any
      (fun kw => subL kw.data (plan_haystack plan)) = false)
    (hsc : scissors_keywords.any (fun kw => subL kw.data (plan_haystack plan)) = true)
    (hcs : child_safe_markers.any (fun m => subL m.data (plan_haystack plan)) = false)
    (hsup : supervision_markers.any
      (fun m => subL m.data (plan_haystack plan)) = false) :
    validate_activity_plan plan request = true := by
  have h36 := PyFloat.not_lt36_of_not_lt72 hden hage
  unfold validate_activity_plan
  simp [hblock, hage, hsc, hcs, hsup, h36]

set_option maxRecDepth 100000 in
/-- Witness for C10: a bare `Schere` mention without markers is accepted for
a 72-month-old. -/
theorem scissors_free_pass_at_72_witness :
    validate_activity_plan (plan_with_trigger baseline_plan "Schere")
      request_six_years = true :=
  scissors_free_pass_at_72 _ _ (by decide) (by decide) (by decide) (by decide)
    (by decide) (by decide)

/-- C4: `pick_daily_adventure` is deterministic.  The seed of the pseudo-random
choice is a pure function of exactly the criteria's ISO date, postal code,
radius and effort — the first 16 hex digits of the SHA-256 of their
`"|"`-join, not a nondeterministic built-in hash — so criteria agreeing on
those four fields yield the same seed, and identical inputs (in this pure
embedding, which carries no process state) always yield the identical pick
and candidate list. -/
theorem pick_daily_adventure_deterministic (advs : List MicroAdventure)
    (c c' : ActivitySearchCriteria) (w : Option WeatherSummary)
    (hdate : c.date = c'.date) (hplz : c.plz = c'.plz)
    (hrad : c.radius_km = c'.radius_km) (heff : c.effort = c'.effort) :
    pick_seed c = pick_seed c'
    ∧ pick_seed c = hexToNat ((sha256_hexdigest (utf8Encode (joinSep "|"
        [isoformat c.date, c.plz, pyFloatStr c.radius_km, c.effort]))).data.take 16)
    ∧ (c = c' → pick_daily_adventure advs c w = pick_daily_adventure advs c' w) := by
  refine ⟨?_, rfl, fun h => by rw [h]⟩
  unfold pick_seed
  rw [hdate, hplz, hrad, heff]

/-- Witness for C4: two evaluations on identical concrete inputs coincide. -/
theorem pick_daily_adventure_deterministic_witness :
    pick_daily_adventure [example_adventure] example_criteria none
      = pick_daily_adventure [example_adventure] example_criteria none :=
  (pick_daily_adventure_deterministic [example_adventure] example_criteria
    example_criteria none rfl rfl rfl rfl).2.2 rfl

/-- C5 amended: immediately after Plan-B completion
(`_ensure_plan_b_variants`), every plan's variant list contains, in its
case-folded concatenation, a match for all four categories — lower energy,
higher energy, indoor swap, no materials.  (The subsequent material
enforcement stage can strip a category-bearing variant that mentions a
blocked material, so the guarantee is about the completion stage, not about
the final enforced plan — see the counterexample.) -/
theorem plan_b_completeness (plan : ActivityPlan) (am : Nat) (sp : String) :
    subL "lower energy".data
      (casefoldL (joinSep "\n" (ensure_plan_b_variants plan am sp).variants).data) = true
    ∧ subL "higher energy".data
      (casefoldL (joinSep "\n" (ensure_plan_b_variants plan am sp).variants).data) = true
    ∧ subL "indoor swap".data
      (casefoldL (joinSep "\n" (ensure_plan_b_variants plan am sp).variants).data) = true
    ∧ subL "no materials".data
      (casefoldL (joinSep "\n" (ensure_plan_b_variants plan am sp).variants).data) = true := by
  refine ⟨?_, ?_, ?_, ?_⟩
  · exact ensure_plan_b_label plan am sp (by decide)
      (by simp [plan_b_categories]) (lower_energy_text_label am)
  · exact @ensure_plan_b_label plan am sp "higher energy" higher_energy_text
      (by decide) (by simp [plan_b_categories]) (by decide)
  · exact @ensure_plan_b_label plan am sp "indoor swap" indoor_swap_text
      (by decide) (by simp [plan_b_categories]) (by decide)
  · exact ensure_plan_b_label plan am sp (by decide)
      (by simp [plan_b_categories]) (no_materials_text_label sp)

set_option maxRecDepth 1000000 in
/-- C5 counterexample: a delivered plan of the full pipeline (template
fallback, validation, material enforcement) whose final variant list has no
`lower energy` match: the adventure's own `lower energy` variant mentions
paper, paper is blocked, so enforcement strips precisely the variant that
carried the category label. -/
theorem plan_b_completeness_counterexample :
    subL "lower energy".data (casefoldL (joinSep "\n"
      (generate_activity_plan_offline example_adventure criteria_paper_blocked
        none PlanMode.standard).variants).data) = false := by
  decide

/-- C8: shrinking the available minutes never adds an adventure to the
filtered output — for any catalog and any two criteria that agree on effort
and topics (the only other fields the filter reads), every adventure passing
the smaller-window criteria passes the larger-window criteria. -/
theorem filter_adventures_monotone (advs : List MicroAdventure)
    (c₁ c₂ : ActivitySearchCriteria)
    (heff : c₁.effort = c₂.effort) (htop : c₁.topics = c₂.topics)
    (hmin : availableMinutes c₁ ≤ availableMinutes c₂) :
    ∀ a ∈ filter_adventures advs c₁, a ∈ filter_adventures advs c₂ := by
  intro a ha
  unfold filter_adventures at ha ⊢
  rw [List.mem_filter] at ha ⊢
  refine ⟨ha.1, ?_⟩
  have hp := ha.2
  simp only [Bool.and_eq_true] at hp ⊢
  refine ⟨⟨?_, ?_⟩, ?_⟩
  · exact decide_eq_true (le_trans (of_decide_eq_true hp.1.1) hmin)
  · rw [← heff]; exact hp.1.2
  · rw [← htop]; exact hp.2

/-- Witness for C8: the example adventure passes a 60-minute window and
therefore also the 120-minute window. -/
theorem filter_adventures_monotone_witness :
    example_adventure ∈ filter_adventures [example_adventure] criteria_no_topics_long :=
  filter_adventures_monotone [example_adventure] criteria_no_topics
    criteria_no_topics_long rfl rfl (by decide) example_adventure (by decide)

/-- C9: `pick_daily_adventure` always produces a pick exactly for non-empty
catalogs: on a non-empty adventure list it returns a pick that is an element
of the input list, and on the empty list both the filtered set and the
fallback are empty, so the seeded choice hits the empty-sequence error
branch (`none`). -/
theorem pick_daily_adventure_total (advs : List MicroAdventure)
    (c : ActivitySearchCriteria) (w : Option WeatherSummary) :
    (advs = [] → pick_daily_adventure advs c w = none)
    ∧ (advs ≠ [] → ∃ pr : MicroAdventure × List MicroAdventure,
        pick_daily_adventure advs c w = some pr ∧ pr.1 ∈ advs) := by
  constructor
  · rintro rfl
    rfl
  · intro h
    have htop := pick_top_ne_nil advs c w h
    have hlen : 0 < (pick_top advs c w).length := List.length_pos.mpr htop
    have hmod : seeded_choice_index (pick_seed c) (pick_top advs c w).length
        < (pick_top advs c w).length := Nat.mod_lt _ hlen
    obtain ⟨x, hx, hxm⟩ := listGet?_of_lt _ _ hmod
    refine ⟨(x, pick_candidates advs c), ?_, ?_⟩
    · simp only [pick_daily_adventure, hx]
    · exact pick_candidates_subset advs c x (pick_top_subset advs c w x hxm)

/-- Witness for C9: the one-element catalog yields a pick. -/
theorem pick_daily_adventure_total_witness :
    (pick_daily_adventure [example_adventure] example_criteria none).isSome = true := by
  obtain ⟨pr, hpr, -⟩ :=
    (pick_daily_adventure_total [example_adventure] example_criteria none).2 (by simp)
  simp [hpr]

/-- C6 amended: when nothing is blocked the plan is returned unchanged;
otherwise every step, variant and prompt line matching a blocked material's
alias list is stripped, a matching summary is replaced by the generic
material-adjusted sentence, and one canned substitution sentence is appended
to `safety_notes` per blocked material whose sentence is not already present
— for every blocked material, regardless of whether that material matched
anywhere in the plan's text. -/
theorem enforce_material_constraints_spec (plan : ActivityPlan)
    (criteria : ActivitySearchCriteria) :
    enforce_material_constraints plan criteria
      = if (blocked_materials criteria.available_materials).isEmpty then plan
        else
          { plan with
              summary :=
                if (material_matches_blocklist plan.summary
                    (blocked_materials criteria.available_materials)).isEmpty then
                  plan.summary
                else material_adjusted_summary,
              steps := plan.steps.filter (fun item =>
                (material_matches_blocklist item
                  (blocked_materials criteria.available_materials)).isEmpty),
              variants := plan.variants.filter (fun item =>
                (material_matches_blocklist item
                  (blocked_materials criteria.available_materials)).isEmpty),
              parent_child_prompts := plan.parent_child_prompts.filter (fun item =>
                (material_matches_blocklist item
                  (blocked_materials criteria.available_materials)).isEmpty),
              safety_notes := plan.safety_notes
                ++ (substitutions_for
                    (blocked_materials criteria.available_materials)).filter
                      (fun s => !(decide (s ∈ plan.safety_notes))) } := by
  unfold enforce_material_constraints
  cases hb : (blocked_materials criteria.available_materials).isEmpty
  · simp only [hb, Bool.false_eq_true, if_false]
    rw [append_new_substitutions_eq _ _ (substitutions_for_nodup _)]
  · simp [hb]

set_option maxRecDepth 100000 in
/-- C6 counterexample: with rice the only blocked material and a plan whose
entire text matches no rice alias, enforcement still appends the rice
substitution sentence to `safety_notes` — the claim says no sentence is
appended for a blocked material with no match. -/
theorem enforce_material_appends_without_match :
    material_matches_blocklist (joinSep "\n"
        ([baseline_plan.title, baseline_plan.summary] ++ baseline_plan.steps
          ++ baseline_plan.safety_notes ++ baseline_plan.parent_child_prompts
          ++ baseline_plan.variants))
        (blocked_materials criteria_rice_blocked.available_materials) = []
    ∧ blocked_materials criteria_rice_blocked.available_materials = ["rice"]
    ∧ (enforce_material_constraints baseline_plan criteria_rice_blocked).safety_notes
        = baseline_plan.safety_notes ++ [material_substitution "rice"] := by
  decide

/-- C7 amended: when the generation collaborator fails on every one of the
3 retried attempts with the same exception, `generate_activity_plan`
returns the safe fallback plan (run through the parent-script and material
stages) exactly when the exception is a pydantic `ValidationError` or a
retryable (transient/timeout) error; any other exception — e.g. an
authentication failure or the unparsable-output `ActivityGenerationError` —
is re-raised to the caller instead of being converted to the fallback. -/
theorem generation_failure_recovery (adventure : MicroAdventure)
    (criteria : ActivitySearchCriteria) (plan_mode : PlanMode) (e : PyError) :
    generate_activity_plan_llm (fun _ => Except.error e) adventure criteria plan_mode
      = if e.is_validation_error || is_retryable_openai_error e then
          Except.ok (fallback_after_failure (build_activity_request adventure criteria)
            criteria plan_mode)
        else Except.error e.message := by
  unfold generate_activity_plan_llm
  rw [retry_attempts_const_error]
  cases hv : e.is_validation_error <;> cases hr : is_retryable_openai_error e <;>
    simp [hv, hr]

/-- C7 counterexample: a permanent authentication failure (HTTP 401, not
transient, not a `ValidationError`) on every attempt makes
`generate_activity_plan` raise `ActivityGenerationError` to the caller — the
claim says every collaborator failure mode ends in the safe fallback plan
instead of raising. -/
theorem generation_failure_surfaces_auth_error :
    generate_activity_plan_llm (fun _ => Except.error auth_error) example_adventure
      example_criteria PlanMode.standard = Except.error "invalid api key"
    ∧ is_retryable_openai_error auth_error = false
    ∧ auth_error.is_validation_error = false :=
  ⟨rfl, by decide, rfl⟩

end Mikro
